import Mathlib

/-!
Verification of the data-type introspection service
(`uavcan::DataTypeInfoProvider`, from
`src/apps/px4/src/lib/uavcan/libuavcan/include/uavcan/protocol/data_type_info_provider.hpp`).

The provider exposes two RPC operations — `ComputeAggregateTypeSignature`
and `GetDataTypeInfo` — over a read-only global data-type registry and a
dispatcher that reports active publishers/subscribers/servers.  Handlers
receive a pre-zeroed response struct by mutable reference; we embed them as
pure functions from the incoming response to the outgoing one.

The registry, the id-space bounds, the response bit-mask constants and the
service-server registration machinery are collaborators of this header that
are not part of the provided source tree; those are modelled from the spec
and marked as such.
-/

namespace DataTypeInfoProvider

/-- Modelled from the spec: the numeric wire value of the Service kind
(one of the exactly two valid `DataTypeKind` values). -/
def DataTypeKindService : Nat := 0

/-- Modelled from the spec: the numeric wire value of the Message kind
(the other valid `DataTypeKind` value). -/
def DataTypeKindMessage : Nat := 1

/-- `DataTypeInfoProvider::isValidDataTypeKind`: a kind is valid iff it is
Message or Service. -/
def isValidDataTypeKind (kind : Nat) : Bool :=
  (kind == DataTypeKindMessage) || (kind == DataTypeKindService)

/-- Modelled from the spec: `DataTypeID::getMaxValueForDataTypeKind`, the
largest id of a kind's id-space (a pure function of the kind; Service ids
have a smaller range than Message ids, the Message id-space max being
65535).  Only called on valid kinds. -/
def getMaxValueForDataTypeKind (kind : Nat) : Nat :=
  if kind == DataTypeKindMessage then 65535 else 255

/-- One registered data type of the registry (kind, id, full name and a
64-bit signature, kept as a `Nat` below `2 ^ 64`). -/
structure DataTypeDescriptor where
  kind : Nat
  id : Nat
  name : String
  signature : Nat
  deriving DecidableEq, Repr

/-- The global data-type registry, as the list of registered descriptors. -/
abbrev Registry := List DataTypeDescriptor

/-- Modelled from the spec: `GlobalDataTypeRegistry::find(kind, id)` —
registry lookup by (kind, id); unknown pairs yield "not found". -/
def findByKindId (reg : Registry) (kind id : Nat) : Option DataTypeDescriptor :=
  reg.find? (fun d => d.kind == kind && d.id == id)

/-- Modelled from the spec: `GlobalDataTypeRegistry::find(name)` — registry
lookup by full name; unknown names yield "not found". -/
def findByName (reg : Registry) (name : String) : Option DataTypeDescriptor :=
  reg.find? (fun d => d.name == name)

/-- Modelled from the spec: the fixed associative, order-independent mixing
function over 64-bit signature values used by the aggregate-signature
computation. -/
def mixSignatures (a b : Nat) : Nat :=
  (a ^^^ b) % 2 ^ 64

/-- Modelled from the spec:
`GlobalDataTypeRegistry::computeAggregateSignature(kind, mask)`.  For every
id of the supplied id-space the registry is asked whether a descriptor for
(kind, id) exists, and the signatures of every id present are combined with
the mixing function; the mask's bits do not gate which signatures are
mixed. -/
def computeAggregateSignature (reg : Registry) (kind : Nat) (mask : List Bool) : Nat :=
  (List.range mask.length).foldr
    (fun i acc =>
      match findByKindId reg kind i with
      | some d => mixSignatures d.signature acc
      | none => acc) 0

/-- Decoded `ComputeAggregateTypeSignature` request: the raw kind value and
the caller-supplied bit-mask of known ids. -/
structure CATSRequest where
  kind : Nat
  known_ids : List Bool
  deriving DecidableEq, Repr

/-- `ComputeAggregateTypeSignature` response struct. -/
structure CATSResponse where
  mutually_known_ids : List Bool
  aggregate_signature : Nat
  deriving DecidableEq, Repr

/-- The pre-zeroed `ComputeAggregateTypeSignature` response handed to the
handler by the dispatch layer. -/
def zeroCATSResponse : CATSResponse :=
  { mutually_known_ids := [], aggregate_signature := 0 }

/-- Resizing of a bit-mask to length `n`: excess positions are discarded,
missing positions are zero-filled. -/
def resizeMask (mask : List Bool) (n : Nat) : List Bool :=
  mask.take n ++ List.replicate (n - mask.length) false

/-- `DataTypeInfoProvider::handleComputeAggregateTypeSignatureRequest`:
invalid kinds are dropped silently; otherwise the caller's mask is copied
into the response, resized to the kind's id-space size, and the aggregate
signature is computed over it. -/
def handleComputeAggregateTypeSignatureRequest (reg : Registry)
    (request : CATSRequest) (response : CATSResponse) : CATSResponse :=
  let kind := request.kind
  if !isValidDataTypeKind kind then
    response
  else
    let mask := resizeMask request.known_ids (getMaxValueForDataTypeKind kind + 1)
    { response with
      mutually_known_ids := mask
      aggregate_signature := computeAggregateSignature reg kind mask }

/-- Modelled from the spec: the "known" bit of the `GetDataTypeInfo`
response status mask (`MASK_KNOWN`, bit 0 of the wire schema). -/
def MASK_KNOWN : Nat := 1

/-- Modelled from the spec: the "subscribed" bit of the status mask
(`MASK_SUBSCRIBED`). -/
def MASK_SUBSCRIBED : Nat := 2

/-- Modelled from the spec: the "publishing" bit of the status mask
(`MASK_PUBLISHING`). -/
def MASK_PUBLISHING : Nat := 4

/-- Modelled from the spec: the "serving" bit of the status mask
(`MASK_SERVING`). -/
def MASK_SERVING : Nat := 8

/-- The dispatch status source: whether an active server, subscriber or
publisher exists for a numeric id. -/
structure Dispatcher where
  hasServer : Nat → Bool
  hasSubscriber : Nat → Bool
  hasPublisher : Nat → Bool

/-- Decoded `GetDataTypeInfo` request: numeric id, raw kind value and the
(full) name; an empty name selects the id-based branch. -/
structure GDTIRequest where
  id : Nat
  kind : Nat
  name : String
  deriving DecidableEq, Repr

/-- `GetDataTypeInfo` response struct. -/
structure GDTIResponse where
  signature : Nat
  id : Nat
  kind : Nat
  mask : Nat
  name : String
  deriving DecidableEq, Repr

/-- The pre-zeroed `GetDataTypeInfo` response handed to the handler. -/
def zeroGDTIResponse : GDTIResponse :=
  { signature := 0, id := 0, kind := 0, mask := 0, name := "" }

/-- The success path of `handleGetDataTypeInfoRequest` once a descriptor was
found: descriptor fields overwrite the echoed pre-fill, the status mask gets
the known bit and then the kind-specific usage bits from the dispatcher.
The returned flag records whether the `UAVCAN_ASSERT(0)` branch for a
descriptor of unrecognized kind was reached. -/
def fillGDTIResponse (disp : Dispatcher) (desc : DataTypeDescriptor)
    (response : GDTIResponse) : GDTIResponse × Bool :=
  let response := { response with
    signature := desc.signature
    id := desc.id
    kind := desc.kind
    mask := MASK_KNOWN
    name := desc.name }
  if desc.kind == DataTypeKindService then
    if disp.hasServer desc.id then
      ({ response with mask := response.mask ||| MASK_SERVING }, false)
    else
      (response, false)
  else if desc.kind == DataTypeKindMessage then
    let response :=
      if disp.hasSubscriber desc.id then
        { response with mask := response.mask ||| MASK_SUBSCRIBED }
      else
        response
    if disp.hasPublisher desc.id then
      ({ response with mask := response.mask ||| MASK_PUBLISHING }, false)
    else
      (response, false)
  else
    (response, true)

/-- `DataTypeInfoProvider::handleGetDataTypeInfoRequest`: with an empty
request name, the id and kind are echoed into the response, the kind is
validated and the descriptor looked up by (kind, id); with a non-empty name,
the name is echoed and the descriptor looked up by name.  A failed
validation or lookup returns with only the echo written.  The `Bool`
component records whether the unknown-kind assertion fired. -/
def handleGetDataTypeInfoRequest (reg : Registry) (disp : Dispatcher)
    (request : GDTIRequest) (response : GDTIResponse) : GDTIResponse × Bool :=
  if request.name.isEmpty then
    let response := { response with id := request.id, kind := request.kind }
    if !isValidDataTypeKind request.kind then
      (response, false)
    else
      match findByKindId reg request.kind request.id with
      | none => (response, false)
      | some desc => fillGDTIResponse disp desc response
  else
    let response := { response with name := request.name }
    match findByName reg request.name with
    | none => (response, false)
    | some desc => fillGDTIResponse disp desc response

/-- The lookup performed by `handleGetDataTypeInfoRequest`: by (kind, id)
after the validity check when the name is empty, by name otherwise. -/
def gdtiLookup (reg : Registry) (request : GDTIRequest) : Option DataTypeDescriptor :=
  if request.name.isEmpty then
    if isValidDataTypeKind request.kind then
      findByKindId reg request.kind request.id
    else
      none
  else
    findByName reg request.name

/-- Registration state of the provider's two service servers. -/
structure ProviderState where
  catsRegistered : Bool
  gdtiRegistered : Bool
  deriving DecidableEq, Repr

/-- Modelled from the spec: the outcome the external dispatch mechanism
gives to each of the two handler registrations attempted by `start()`
(negative means failure). -/
structure RegEnv where
  catsStartResult : Int
  gdtiStartResult : Int
  deriving DecidableEq, Repr

/-- `DataTypeInfoProvider::start`: registers the
`ComputeAggregateTypeSignature` server, then the `GetDataTypeInfo` server;
on the failure of either, both servers are stopped and the negative result
is returned, otherwise the (non-negative) result is returned with both
registered. -/
def start (env : RegEnv) : Int × ProviderState :=
  let res := env.catsStartResult
  if res < 0 then
    (res, { catsRegistered := false, gdtiRegistered := false })
  else
    let res := env.gdtiStartResult
    if res < 0 then
      (res, { catsRegistered := false, gdtiRegistered := false })
    else
      (res, { catsRegistered := true, gdtiRegistered := true })

/-- A small concrete registry used for witness instantiations. -/
def demoRegistry : Registry :=
  [{ kind := DataTypeKindService, id := 3, name := "demo.Srv", signature := 0xAABB },
   { kind := DataTypeKindMessage, id := 20, name := "foo.Bar", signature := 0xAABBCCDD11223344 },
   { kind := DataTypeKindService, id := 7, name := "demo.Srv2", signature := 0x11 }]

/-- The Service-kind descriptor registered in `demoRegistry`. -/
def demoServiceDesc : DataTypeDescriptor :=
  { kind := DataTypeKindService, id := 3, name := "demo.Srv", signature := 0xAABB }

/-- A concrete dispatch status source used for witness instantiations: a
server on id 3, a subscriber and a publisher on id 20. -/
def demoDispatcher : Dispatcher :=
  { hasServer := fun i => i == 3
    hasSubscriber := fun i => i == 20
    hasPublisher := fun i => i == 20 }

lemma resizeMask_length (m : List Bool) (n : Nat) : (resizeMask m n).length = n := by
  simp [resizeMask, List.length_take]
  omega

lemma resizeMask_getD (m : List Bool) (n i : Nat) (h : i < n) :
    (resizeMask m n).getD i false =
      if i < m.length then m.getD i false else false := by
  unfold resizeMask
  rcases Nat.lt_or_ge i (m.take n).length with hi | hi
  · have him : i < m.length := by
      simp [List.length_take] at hi
      omega
    simp only [if_pos him]
    rw [List.getD_eq_getElem?_getD, List.getElem?_append, if_pos hi,
      ← List.getD_eq_getElem?_getD]
    simp [List.getD_eq_getElem?_getD, List.getElem?_take, h]
  · have him : ¬ i < m.length := by
      simp [List.length_take] at hi
      omega
    simp only [if_neg him]
    rw [List.getD_eq_getElem?_getD, List.getElem?_append, if_neg (Nat.not_lt.mpr hi)]
    have hrep : i - n ⊓ m.length < n - m.length := by
      simp [List.length_take] at hi
      omega
    simp [List.getElem?_replicate, List.length_take, hrep]

lemma computeAggregateSignature_congr_length (reg : Registry) (kind : Nat)
    {m₁ m₂ : List Bool} (h : m₁.length = m₂.length) :
    computeAggregateSignature reg kind m₁ = computeAggregateSignature reg kind m₂ := by
  unfold computeAggregateSignature
  rw [h]

lemma foldr_mix_filterMap (reg : Registry) (kind : Nat) (l : List Nat) (init : Nat) :
    l.foldr
      (fun i acc =>
        match findByKindId reg kind i with
        | some d => mixSignatures d.signature acc
        | none => acc) init
    = (l.filterMap (fun i => (findByKindId reg kind i).map DataTypeDescriptor.signature)).foldr
        mixSignatures init := by
  induction l with
  | nil => rfl
  | cons a l ih =>
    simp only [List.foldr_cons, List.filterMap_cons]
    cases h : findByKindId reg kind a <;> simp [h, ih]

lemma xor_mod_two_pow (a b n : Nat) : (a ^^^ b) % 2 ^ n = a % 2 ^ n ^^^ b % 2 ^ n := by
  apply Nat.eq_of_testBit_eq
  intro i
  simp only [Nat.testBit_mod_two_pow, Nat.testBit_xor]
  cases Decidable.em (i < n) with
  | inl h => simp [h]
  | inr h => simp [h]

lemma mixSignatures_comm (a b : Nat) : mixSignatures a b = mixSignatures b a := by
  unfold mixSignatures
  rw [Nat.xor_comm]

lemma mixSignatures_assoc (a b c : Nat) :
    mixSignatures (mixSignatures a b) c = mixSignatures a (mixSignatures b c) := by
  unfold mixSignatures
  rw [xor_mod_two_pow ((a ^^^ b) % 2 ^ 64) c 64, Nat.mod_mod_of_dvd _ dvd_rfl,
    xor_mod_two_pow a b 64, xor_mod_two_pow a ((b ^^^ c) % 2 ^ 64) 64,
    Nat.mod_mod_of_dvd _ dvd_rfl, xor_mod_two_pow b c 64, Nat.xor_assoc]

lemma handleGDTI_found (reg : Registry) (disp : Dispatcher) (request : GDTIRequest)
    (desc : DataTypeDescriptor) (hfind : gdtiLookup reg request = some desc) :
    ∃ r, handleGetDataTypeInfoRequest reg disp request zeroGDTIResponse
      = fillGDTIResponse disp desc r := by
  unfold gdtiLookup at hfind
  unfold handleGetDataTypeInfoRequest
  cases hname : request.name.isEmpty with
  | true =>
    simp only [hname, if_true] at hfind ⊢
    cases hvalid : isValidDataTypeKind request.kind with
    | false => simp [hvalid] at hfind
    | true =>
      simp only [hvalid, if_true] at hfind
      simp only [hvalid, Bool.not_true, Bool.false_eq_true, if_false, hfind]
      exact ⟨_, rfl⟩
  | false =>
    simp only [hname, Bool.false_eq_true, if_false] at hfind ⊢
    simp only [hfind]
    exact ⟨_, rfl⟩

lemma fillGDTIResponse_mask_known (disp : Dispatcher) (desc : DataTypeDescriptor)
    (r : GDTIResponse) : ((fillGDTIResponse disp desc r).1).mask.testBit 0 = true := by
  unfold fillGDTIResponse
  cases hS : desc.kind == DataTypeKindService <;>
    cases hM : desc.kind == DataTypeKindMessage <;>
    cases hsv : disp.hasServer desc.id <;>
    cases hsub : disp.hasSubscriber desc.id <;>
    cases hpub : disp.hasPublisher desc.id <;>
    simp [hS, hM, hsv, hsub, hpub, MASK_KNOWN, MASK_SERVING, MASK_SUBSCRIBED, MASK_PUBLISHING]

lemma fillGDTIResponse_no_assert (disp : Dispatcher) (desc : DataTypeDescriptor)
    (r : GDTIResponse)
    (h : desc.kind = DataTypeKindMessage ∨ desc.kind = DataTypeKindService) :
    (fillGDTIResponse disp desc r).2 = false := by
  unfold fillGDTIResponse
  rcases h with h | h <;>
    simp only [h, DataTypeKindMessage, DataTypeKindService] <;>
    split <;> simp_all <;> split <;> rfl

lemma gdtiLookup_mem (reg : Registry) (request : GDTIRequest) (desc : DataTypeDescriptor)
    (h : gdtiLookup reg request = some desc) : desc ∈ reg := by
  unfold gdtiLookup at h
  split at h
  · split at h
    · exact List.mem_of_find?_eq_some h
    · simp at h
  · exact List.mem_of_find?_eq_some h

lemma handleGDTI_notfound_snd (reg : Registry) (disp : Dispatcher) (request : GDTIRequest)
    (h : gdtiLookup reg request = none) :
    (handleGetDataTypeInfoRequest reg disp request zeroGDTIResponse).2 = false := by
  unfold gdtiLookup at h
  unfold handleGetDataTypeInfoRequest
  cases hname : request.name.isEmpty with
  | true =>
    simp only [hname, if_true] at h ⊢
    cases hvalid : isValidDataTypeKind request.kind with
    | false => simp [hvalid]
    | true =>
      simp only [hvalid, if_true] at h
      simp [hvalid, h]
  | false =>
    simp only [hname, Bool.false_eq_true, if_false] at h ⊢
    simp [h]

end DataTypeInfoProvider

namespace DataTypeInfoProvider

/-- C1: for every valid kind and every caller-supplied mask, the aggregate
signature returned by `handleComputeAggregateTypeSignatureRequest` does not
depend on the caller's mask, and equals the fold of the fixed mixing
function over the signatures of every id registered for that kind; the
mixing function is commutative (order-independent) and associative. -/
theorem cats_signature_not_gated_by_mask (reg : Registry) (kind : Nat) (m₁ m₂ : List Bool)
    (hk : isValidDataTypeKind kind = true) :
    ((handleComputeAggregateTypeSignatureRequest reg ⟨kind, m₁⟩ zeroCATSResponse).aggregate_signature
      = (handleComputeAggregateTypeSignatureRequest reg ⟨kind, m₂⟩ zeroCATSResponse).aggregate_signature)
    ∧ ((handleComputeAggregateTypeSignatureRequest reg ⟨kind, m₁⟩ zeroCATSResponse).aggregate_signature
      = ((List.range (getMaxValueForDataTypeKind kind + 1)).filterMap
          (fun i => (findByKindId reg kind i).map DataTypeDescriptor.signature)).foldr
          mixSignatures 0)
    ∧ (∀ a b, mixSignatures a b = mixSignatures b a)
    ∧ (∀ a b c, mixSignatures (mixSignatures a b) c = mixSignatures a (mixSignatures b c)) := by
  have hsig : ∀ m : List Bool,
      (handleComputeAggregateTypeSignatureRequest reg ⟨kind, m⟩ zeroCATSResponse).aggregate_signature
        = ((List.range (getMaxValueForDataTypeKind kind + 1)).filterMap
            (fun i => (findByKindId reg kind i).map DataTypeDescriptor.signature)).foldr
            mixSignatures 0 := by
    intro m
    simp only [handleComputeAggregateTypeSignatureRequest, hk, Bool.not_true,
      Bool.false_eq_true, if_false]
    unfold computeAggregateSignature
    rw [resizeMask_length]
    exact foldr_mix_filterMap reg kind _ 0
  exact ⟨(hsig m₁).trans (hsig m₂).symm, hsig m₁, mixSignatures_comm, mixSignatures_assoc⟩

/-- Witness for C1 at a concrete registry, the Service kind and two
different masks. -/
theorem cats_signature_not_gated_by_mask_witness :
    isValidDataTypeKind DataTypeKindService = true ∧
    (((handleComputeAggregateTypeSignatureRequest demoRegistry
        ⟨DataTypeKindService, [true, false, true]⟩ zeroCATSResponse).aggregate_signature
      = (handleComputeAggregateTypeSignatureRequest demoRegistry
          ⟨DataTypeKindService, []⟩ zeroCATSResponse).aggregate_signature)
    ∧ ((handleComputeAggregateTypeSignatureRequest demoRegistry
        ⟨DataTypeKindService, [true, false, true]⟩ zeroCATSResponse).aggregate_signature
      = ((List.range (getMaxValueForDataTypeKind DataTypeKindService + 1)).filterMap
          (fun i => (findByKindId demoRegistry DataTypeKindService i).map
            DataTypeDescriptor.signature)).foldr mixSignatures 0)
    ∧ (∀ a b, mixSignatures a b = mixSignatures b a)
    ∧ (∀ a b c, mixSignatures (mixSignatures a b) c = mixSignatures a (mixSignatures b c))) :=
  ⟨by decide,
   cats_signature_not_gated_by_mask demoRegistry DataTypeKindService
     [true, false, true] [] (by decide)⟩

/-- C2: for every valid kind and caller mask of any length, the response
mask of `handleComputeAggregateTypeSignatureRequest` has length exactly
`maxValue(kind) + 1`, its first `min(len(m), maxValue(kind) + 1)` bits copy
the caller's mask and the remaining bits are zero. -/
theorem cats_mask_normalized (reg : Registry) (kind : Nat) (m : List Bool)
    (hk : isValidDataTypeKind kind = true) :
    ((handleComputeAggregateTypeSignatureRequest reg ⟨kind, m⟩ zeroCATSResponse).mutually_known_ids.length
      = getMaxValueForDataTypeKind kind + 1)
    ∧ ∀ i, i < getMaxValueForDataTypeKind kind + 1 →
        (handleComputeAggregateTypeSignatureRequest reg ⟨kind, m⟩ zeroCATSResponse).mutually_known_ids.getD i false
          = if i < m.length then m.getD i false else false := by
  have hmask : (handleComputeAggregateTypeSignatureRequest reg ⟨kind, m⟩ zeroCATSResponse).mutually_known_ids
      = resizeMask m (getMaxValueForDataTypeKind kind + 1) := by
    simp only [handleComputeAggregateTypeSignatureRequest, hk, Bool.not_true,
      Bool.false_eq_true, if_false]
  rw [hmask]
  exact ⟨resizeMask_length m _, fun i hi => resizeMask_getD m _ i hi⟩

/-- Witness for C2 at the Service kind and a 3-bit caller mask, normalized
to the 256-bit Service id-space. -/
theorem cats_mask_normalized_witness :
    isValidDataTypeKind DataTypeKindService = true ∧
    (((handleComputeAggregateTypeSignatureRequest demoRegistry
        ⟨DataTypeKindService, [true, false, true]⟩ zeroCATSResponse).mutually_known_ids.length
      = getMaxValueForDataTypeKind DataTypeKindService + 1)
    ∧ ∀ i, i < getMaxValueForDataTypeKind DataTypeKindService + 1 →
        (handleComputeAggregateTypeSignatureRequest demoRegistry
          ⟨DataTypeKindService, [true, false, true]⟩ zeroCATSResponse).mutually_known_ids.getD i false
          = if i < [true, false, true].length then [true, false, true].getD i false else false) :=
  ⟨by decide,
   cats_mask_normalized demoRegistry DataTypeKindService [true, false, true] (by decide)⟩

/-- C5: a `ComputeAggregateTypeSignature` request with an invalid kind
leaves the pre-zeroed response completely untouched. -/
theorem cats_invalid_kind_writes_nothing (reg : Registry) (request : CATSRequest)
    (h : isValidDataTypeKind request.kind = false) :
    handleComputeAggregateTypeSignatureRequest reg request zeroCATSResponse
      = zeroCATSResponse := by
  simp [handleComputeAggregateTypeSignatureRequest, h]

/-- Witness for C5 at the invalid kind value 5. -/
theorem cats_invalid_kind_writes_nothing_witness :
    isValidDataTypeKind (5 : Nat) = false ∧
    handleComputeAggregateTypeSignatureRequest demoRegistry ⟨5, [true]⟩ zeroCATSResponse
      = zeroCATSResponse :=
  ⟨by decide, cats_invalid_kind_writes_nothing demoRegistry ⟨5, [true]⟩ (by decide)⟩

/-- C3: whenever `handleGetDataTypeInfoRequest` finds a descriptor, the
response mask has the known bit (bit 0); for a Service descriptor the
serving bit (bit 3) tracks `hasServer` and the subscribed/publishing bits
stay clear; for a Message descriptor the subscribed bit (bit 1) tracks
`hasSubscriber`, the publishing bit (bit 2) tracks `hasPublisher`, and the
serving bit stays clear. -/
theorem gdti_status_mask_bits (reg : Registry) (disp : Dispatcher) (request : GDTIRequest)
    (desc : DataTypeDescriptor) (hfind : gdtiLookup reg request = some desc) :
    ((handleGetDataTypeInfoRequest reg disp request zeroGDTIResponse).1.mask.testBit 0 = true)
    ∧ (desc.kind = DataTypeKindService →
        ((handleGetDataTypeInfoRequest reg disp request zeroGDTIResponse).1.mask.testBit 3
            = disp.hasServer desc.id)
        ∧ (handleGetDataTypeInfoRequest reg disp request zeroGDTIResponse).1.mask.testBit 1 = false
        ∧ (handleGetDataTypeInfoRequest reg disp request zeroGDTIResponse).1.mask.testBit 2 = false)
    ∧ (desc.kind = DataTypeKindMessage →
        ((handleGetDataTypeInfoRequest reg disp request zeroGDTIResponse).1.mask.testBit 1
            = disp.hasSubscriber desc.id)
        ∧ ((handleGetDataTypeInfoRequest reg disp request zeroGDTIResponse).1.mask.testBit 2
            = disp.hasPublisher desc.id)
        ∧ (handleGetDataTypeInfoRequest reg disp request zeroGDTIResponse).1.mask.testBit 3 = false) := by
  obtain ⟨r, hr⟩ := handleGDTI_found reg disp request desc hfind
  rw [hr]
  refine ⟨fillGDTIResponse_mask_known disp desc r, ?_, ?_⟩
  · intro hS
    unfold fillGDTIResponse
    cases hsv : disp.hasServer desc.id <;>
      simp [hS, DataTypeKindService, MASK_KNOWN, MASK_SERVING, hsv] <;>
      decide
  · intro hM
    unfold fillGDTIResponse
    cases hsub : disp.hasSubscriber desc.id <;>
      cases hpub : disp.hasPublisher desc.id <;>
      simp [hM, DataTypeKindService, DataTypeKindMessage, hsub, hpub,
        MASK_KNOWN, MASK_SUBSCRIBED, MASK_PUBLISHING] <;>
      decide

/-- Witness for C3 at a registered Service descriptor with an active
server. -/
theorem gdti_status_mask_bits_witness :
    gdtiLookup demoRegistry ⟨3, DataTypeKindService, ""⟩ = some demoServiceDesc
    ∧ (((handleGetDataTypeInfoRequest demoRegistry demoDispatcher
          ⟨3, DataTypeKindService, ""⟩ zeroGDTIResponse).1.mask.testBit 0 = true)
      ∧ (demoServiceDesc.kind = DataTypeKindService →
          ((handleGetDataTypeInfoRequest demoRegistry demoDispatcher
              ⟨3, DataTypeKindService, ""⟩ zeroGDTIResponse).1.mask.testBit 3
            = demoDispatcher.hasServer demoServiceDesc.id)
          ∧ (handleGetDataTypeInfoRequest demoRegistry demoDispatcher
              ⟨3, DataTypeKindService, ""⟩ zeroGDTIResponse).1.mask.testBit 1 = false
          ∧ (handleGetDataTypeInfoRequest demoRegistry demoDispatcher
              ⟨3, DataTypeKindService, ""⟩ zeroGDTIResponse).1.mask.testBit 2 = false)
      ∧ (demoServiceDesc.kind = DataTypeKindMessage →
          ((handleGetDataTypeInfoRequest demoRegistry demoDispatcher
              ⟨3, DataTypeKindService, ""⟩ zeroGDTIResponse).1.mask.testBit 1
            = demoDispatcher.hasSubscriber demoServiceDesc.id)
          ∧ ((handleGetDataTypeInfoRequest demoRegistry demoDispatcher
              ⟨3, DataTypeKindService, ""⟩ zeroGDTIResponse).1.mask.testBit 2
            = demoDispatcher.hasPublisher demoServiceDesc.id)
          ∧ (handleGetDataTypeInfoRequest demoRegistry demoDispatcher
              ⟨3, DataTypeKindService, ""⟩ zeroGDTIResponse).1.mask.testBit 3 = false)) :=
  ⟨by decide,
   gdti_status_mask_bits demoRegistry demoDispatcher ⟨3, DataTypeKindService, ""⟩
     demoServiceDesc (by decide)⟩

/-- C4: an id-based `GetDataTypeInfo` query echoes the request's id and
kind into the response, and on an invalid kind or a failed lookup the
response carries only that echo — signature, name and status mask keep
their pre-zeroed defaults, and the assertion does not fire. -/
theorem gdti_id_query_failure_echoes (reg : Registry) (disp : Dispatcher)
    (request : GDTIRequest) (hname : request.name.isEmpty = true)
    (hfail : isValidDataTypeKind request.kind = false
      ∨ findByKindId reg request.kind request.id = none) :
    handleGetDataTypeInfoRequest reg disp request zeroGDTIResponse
      = ({ zeroGDTIResponse with id := request.id, kind := request.kind }, false) := by
  unfold handleGetDataTypeInfoRequest
  rcases hfail with hfail | hfail
  · simp [hname, hfail]
  · cases hvalid : isValidDataTypeKind request.kind with
    | false => simp [hname, hvalid]
    | true => simp [hname, hvalid, hfail]

/-- Witness for C4: id 9999 of the Service kind is not registered. -/
theorem gdti_id_query_failure_echoes_witness :
    ("" : String).isEmpty = true
    ∧ findByKindId demoRegistry DataTypeKindService 9999 = none
    ∧ handleGetDataTypeInfoRequest demoRegistry demoDispatcher
        ⟨9999, DataTypeKindService, ""⟩ zeroGDTIResponse
      = ({ zeroGDTIResponse with id := 9999, kind := DataTypeKindService }, false) :=
  ⟨by decide, by decide,
   gdti_id_query_failure_echoes demoRegistry demoDispatcher
     ⟨9999, DataTypeKindService, ""⟩ (by decide) (Or.inr (by decide))⟩

/-- C6: a name-based `GetDataTypeInfo` query whose name is not registered
returns with only the echoed name written; id, kind, signature and the
status mask keep their pre-zeroed defaults. -/
theorem gdti_name_query_notfound_echoes (reg : Registry) (disp : Dispatcher)
    (request : GDTIRequest) (hname : request.name.isEmpty = false)
    (hfind : findByName reg request.name = none) :
    handleGetDataTypeInfoRequest reg disp request zeroGDTIResponse
      = ({ zeroGDTIResponse with name := request.name }, false) := by
  unfold handleGetDataTypeInfoRequest
  simp [hname, hfind]

/-- Witness for C6 at an unregistered name. -/
theorem gdti_name_query_notfound_echoes_witness :
    ("no.Such" : String).isEmpty = false
    ∧ findByName demoRegistry "no.Such" = none
    ∧ handleGetDataTypeInfoRequest demoRegistry demoDispatcher
        ⟨0, 0, "no.Such"⟩ zeroGDTIResponse
      = ({ zeroGDTIResponse with name := "no.Such" }, false) :=
  ⟨by decide, by decide,
   gdti_name_query_notfound_echoes demoRegistry demoDispatcher
     ⟨0, 0, "no.Such"⟩ (by decide) (by decide)⟩

/-- C9: when every descriptor in the registry has the Message or Service
kind, the unknown-kind assertion branch of `handleGetDataTypeInfoRequest`
is unreachable. -/
theorem gdti_assert_unreachable (reg : Registry) (disp : Dispatcher) (request : GDTIRequest)
    (hinv : ∀ d ∈ reg, d.kind = DataTypeKindMessage ∨ d.kind = DataTypeKindService) :
    (handleGetDataTypeInfoRequest reg disp request zeroGDTIResponse).2 = false := by
  cases hlook : gdtiLookup reg request with
  | none => exact handleGDTI_notfound_snd reg disp request hlook
  | some desc =>
    obtain ⟨r, hr⟩ := handleGDTI_found reg disp request desc hlook
    rw [hr]
    exact fillGDTIResponse_no_assert disp desc r
      (hinv desc (gdtiLookup_mem reg request desc hlook))

/-- Witness for C9 on a registry holding only Message- and Service-kind
descriptors. -/
theorem gdti_assert_unreachable_witness :
    (∀ d ∈ demoRegistry, d.kind = DataTypeKindMessage ∨ d.kind = DataTypeKindService)
    ∧ (handleGetDataTypeInfoRequest demoRegistry demoDispatcher
        ⟨20, DataTypeKindMessage, ""⟩ zeroGDTIResponse).2 = false :=
  ⟨by decide,
   gdti_assert_unreachable demoRegistry demoDispatcher
     ⟨20, DataTypeKindMessage, ""⟩ (by decide)⟩

/-- C10: a name-based `GetDataTypeInfo` query ignores the request's id and
kind entirely — even an invalid kind value — and succeeds (known bit set)
whenever the name is registered. -/
theorem gdti_name_query_ignores_id_kind (reg : Registry) (disp : Dispatcher)
    (id₁ kind₁ id₂ kind₂ : Nat) (name : String) (hname : name.isEmpty = false) :
    (handleGetDataTypeInfoRequest reg disp ⟨id₁, kind₁, name⟩ zeroGDTIResponse
      = handleGetDataTypeInfoRequest reg disp ⟨id₂, kind₂, name⟩ zeroGDTIResponse)
    ∧ ∀ desc, findByName reg name = some desc →
        (handleGetDataTypeInfoRequest reg disp ⟨id₁, kind₁, name⟩
          zeroGDTIResponse).1.mask.testBit 0 = true := by
  constructor
  · unfold handleGetDataTypeInfoRequest
    simp [hname]
  · intro desc hdesc
    have hlook : gdtiLookup reg ⟨id₁, kind₁, name⟩ = some desc := by
      simp [gdtiLookup, hname, hdesc]
    obtain ⟨r, hr⟩ := handleGDTI_found reg disp ⟨id₁, kind₁, name⟩ desc hlook
    rw [hr]
    exact fillGDTIResponse_mask_known disp desc r

/-- Witness for C10 at a registered name with an invalid kind value in the
request. -/
theorem gdti_name_query_ignores_id_kind_witness :
    ("foo.Bar" : String).isEmpty = false
    ∧ ((handleGetDataTypeInfoRequest demoRegistry demoDispatcher
          ⟨0, 7, "foo.Bar"⟩ zeroGDTIResponse
        = handleGetDataTypeInfoRequest demoRegistry demoDispatcher
            ⟨1, DataTypeKindMessage, "foo.Bar"⟩ zeroGDTIResponse)
      ∧ ∀ desc, findByName demoRegistry "foo.Bar" = some desc →
          (handleGetDataTypeInfoRequest demoRegistry demoDispatcher
            ⟨0, 7, "foo.Bar"⟩ zeroGDTIResponse).1.mask.testBit 0 = true) :=
  ⟨by decide,
   gdti_name_query_ignores_id_kind demoRegistry demoDispatcher
     0 7 1 DataTypeKindMessage "foo.Bar" (by decide)⟩

/-- C7: `start` registers the two handlers atomically — if either
registration fails, both servers end up unregistered and a negative code is
returned; if both succeed, a non-negative code is returned with both
registered. -/
theorem start_registers_atomically (env : RegEnv) :
    ((env.catsStartResult < 0 ∨ env.gdtiStartResult < 0) →
      ((start env).1 < 0
        ∧ (start env).2 = { catsRegistered := false, gdtiRegistered := false }))
    ∧ (0 ≤ env.catsStartResult → 0 ≤ env.gdtiStartResult →
      (0 ≤ (start env).1
        ∧ (start env).2 = { catsRegistered := true, gdtiRegistered := true })) := by
  unfold start
  by_cases hc : env.catsStartResult < 0
  · constructor
    · intro _
      simp [hc]
    · intro hc' _
      omega
  · by_cases hg : env.gdtiStartResult < 0
    · constructor
      · intro _
        simp [hc, hg]
      · intro _ hg'
        omega
    · constructor
      · intro h
        rcases h with h | h
        · exact absurd h hc
        · exact absurd h hg
      · intro _ _
        simp [hc, hg]
        omega

/-- Witness for C7: a failing first registration yields a negative result
and no registered handler. -/
theorem start_registers_atomically_witness :
    ((-1 : Int) < 0 ∨ (3 : Int) < 0)
    ∧ ((start { catsStartResult := -1, gdtiStartResult := 3 }).1 < 0
      ∧ (start { catsStartResult := -1, gdtiStartResult := 3 }).2
        = { catsRegistered := false, gdtiRegistered := false }) :=
  ⟨Or.inl (by decide),
   (start_registers_atomically { catsStartResult := -1, gdtiStartResult := 3 }).1
     (Or.inl (by decide))⟩

/-- C8: both handlers are deterministic in the registry and dispatch
status — identical invocations on the same pre-zeroed response with an
unchanged registry and dispatch status produce identical responses. -/
theorem handlers_deterministic (reg reg' : Registry) (disp disp' : Dispatcher)
    (creq : CATSRequest) (greq : GDTIRequest)
    (hreg : reg = reg') (hdisp : disp = disp') :
    (handleComputeAggregateTypeSignatureRequest reg creq zeroCATSResponse
      = handleComputeAggregateTypeSignatureRequest reg' creq zeroCATSResponse)
    ∧ (handleGetDataTypeInfoRequest reg disp greq zeroGDTIResponse
      = handleGetDataTypeInfoRequest reg' disp' greq zeroGDTIResponse) := by
  subst hreg
  subst hdisp
  exact ⟨rfl, rfl⟩

/-- Witness for C8 at concrete requests against the demo registry and
dispatcher. -/
theorem handlers_deterministic_witness :
    demoRegistry = demoRegistry
    ∧ ((handleComputeAggregateTypeSignatureRequest demoRegistry
          ⟨DataTypeKindMessage, [true]⟩ zeroCATSResponse
        = handleComputeAggregateTypeSignatureRequest demoRegistry
            ⟨DataTypeKindMessage, [true]⟩ zeroCATSResponse)
      ∧ (handleGetDataTypeInfoRequest demoRegistry demoDispatcher
          ⟨3, DataTypeKindService, ""⟩ zeroGDTIResponse
        = handleGetDataTypeInfoRequest demoRegistry demoDispatcher
            ⟨3, DataTypeKindService, ""⟩ zeroGDTIResponse)) :=
  ⟨rfl,
   handlers_deterministic demoRegistry demoRegistry demoDispatcher demoDispatcher
     ⟨DataTypeKindMessage, [true]⟩ ⟨3, DataTypeKindService, ""⟩ rfl rfl⟩

end DataTypeInfoProvider
